import Mathlib

/-!
Verification of the secure-bootstrap layer of an FTP/FTPS server
(source: ftp_server.py).  The Python source is shallowly embedded:
the manual TLS handshake loop of ConfiguredFTPHandler.__init__, the
class-level SSL-context cache of ConfiguredFTPHandler.get_ssl_context,
and the startup configuration logic of main are translated into pure
Lean functions over explicit state and environment records.
-/

namespace FTP2NetDrive

/-! ## Handshake engine (ConfiguredFTPHandler.__init__, lines 49-59)

One call to ssl_conn.do_handshake either succeeds, raises
SSL.WantReadError, raises SSL.WantWriteError, or raises a protocol
error.  The transport behaviour is an oracle giving the outcome of the
n-th handshake attempt and, for the wait following the n-th attempt,
the time until the socket becomes readable (none = never). -/

inductive StepResult
  | success
  | wantRead
  | wantWrite
  | protocolError
deriving DecidableEq

structure Transport where
  step : Nat → StepResult
  readyAfter : Nat → Option Nat

inductive WaitDir
  | read
  | write
deriving DecidableEq

inductive LoopOutcome
  | ok
  | timedOut
  | errWantWrite
  | errProtocol
deriving DecidableEq

/-- Result of the handshake retry loop: final outcome together with the
list of readiness waits performed, each recorded as its direction and
the time actually spent waiting. -/
structure LoopResult where
  outcome : LoopOutcome
  waits : List (WaitDir × Nat)
deriving DecidableEq

def totalWait (r : LoopResult) : Nat :=
  (r.waits.map Prod.snd).sum

/-- Embedding of the loop

    while True:
        try:
            ssl_conn.do_handshake(); break
        except SSL.WantReadError:
            readable, _, _ = select.select([ssl_conn], [], [], timeout)
            if not readable:
                raise TimeoutError(...)

Only WantReadError is caught; the select call always waits for
readability, with the full class timeout T each time.  select reports
the socket readable when it becomes ready within T (time spent: the
ready time), otherwise it returns empty after T and TimeoutError is
raised.  A WantWriteError or protocol error escapes the loop.  fuel
bounds the number of attempts (the Python loop may run forever);
none means fuel ran out before the loop finished. -/
def handshakeLoop (t : Transport) (T : Nat) : Nat → Nat → Option LoopResult
  | 0, _ => none
  | fuel + 1, i =>
    match t.step i with
    | StepResult.success => some ⟨LoopOutcome.ok, []⟩
    | StepResult.wantWrite => some ⟨LoopOutcome.errWantWrite, []⟩
    | StepResult.protocolError => some ⟨LoopOutcome.errProtocol, []⟩
    | StepResult.wantRead =>
      match t.readyAfter i with
      | none => some ⟨LoopOutcome.timedOut, [(WaitDir.read, T)]⟩
      | some r =>
        if r ≤ T then
          match handshakeLoop t T fuel (i + 1) with
          | none => none
          | some res => some ⟨res.outcome, (WaitDir.read, r) :: res.waits⟩
        else some ⟨LoopOutcome.timedOut, [(WaitDir.read, T)]⟩

/-- Every wait the loop performed was a read-readiness wait. -/
def loopWaitsAllRead (o : Option LoopResult) : Bool :=
  match o with
  | none => true
  | some r => r.waits.all (fun w => w.1 == WaitDir.read)

/-- Every wait the loop performed took at most T. -/
def loopWaitsLe (T : Nat) (o : Option LoopResult) : Bool :=
  match o with
  | none => true
  | some r => r.waits.all (fun w => decide (w.2 ≤ T))

/-- Observable result of ConfiguredFTPHandler.__init__ for one
connection: whether the raw connection was closed, whether
super().__init__ (the protocol-handler lifecycle) was entered, whether
the connection handed to it was the TLS-wrapped one, and whether an
exception escaped __init__. -/
structure InitResult where
  connClosed : Bool
  superInit : Bool
  tlsWrapped : Bool
  raised : Bool
deriving DecidableEq

/-- Embedding of ConfiguredFTPHandler.__init__ (lines 33-75).  With
implicit_tls set, get_ssl_context is called (ctxOk records whether it
returned a context; None raises RuntimeError) and the handshake loop
runs; every exception in the try block — RuntimeError, TimeoutError,
WantWriteError, SSL protocol errors — is caught by the single
except Exception clause, which closes the raw conn and returns without
calling super().__init__.  On success conn is rebound to ssl_conn and
super().__init__ runs.  Without implicit_tls the raw conn goes straight
to super().__init__. -/
def handlerInit (implicitTls ctxOk : Bool) (t : Transport) (T fuel : Nat) :
    Option InitResult :=
  if implicitTls then
    if ctxOk then
      match handshakeLoop t T fuel 0 with
      | none => none
      | some res =>
        match res.outcome with
        | LoopOutcome.ok => some ⟨false, true, true, false⟩
        | _ => some ⟨true, false, false, false⟩
    else some ⟨true, false, false, false⟩
  else some ⟨false, true, false, false⟩

/-! ## TLS context cache (ConfiguredFTPHandler.get_ssl_context, lines 77-96)

The pyOpenSSL calls are modelled over an environment saying which build
steps succeed.  The option flags carry their OpenSSL bit values. -/

def OP_NO_SSLv2 : Nat := 0x01000000
def OP_NO_SSLv3 : Nat := 0x02000000
def OP_NO_TLSv1 : Nat := 0x04000000
def OP_NO_TLSv1_1 : Nat := 0x10000000
def OP_NO_TLSv1_2 : Nat := 0x08000000
def OP_NO_TLSv1_3 : Nat := 0x20000000

/-- Environment for one attempted context construction: whether
use_privatekey_file, use_certificate_file and check_privatekey
succeed on the configured key/cert files. -/
structure SslEnv where
  keyOk : Bool
  certOk : Bool
  keyMatches : Bool
deriving DecidableEq

/-- The state of a built pyOpenSSL context that the source observes:
its accumulated option bits (the method is always SSLv23_METHOD). -/
structure SslContext where
  options : Nat
deriving DecidableEq

/-- The option bits set at line 87. -/
def tlsOptions : Nat :=
  OP_NO_SSLv2 ||| OP_NO_SSLv3 ||| OP_NO_TLSv1 ||| OP_NO_TLSv1_1

/-- Embedding of the try block of get_ssl_context (lines 86-92):
SSL.Context(SSLv23_METHOD), set_options of the four OP_NO flags,
use_privatekey_file, use_certificate_file, check_privatekey.  Any
failing step raises; the error message names the step. -/
def buildContext (env : SslEnv) : Except String SslContext :=
  if !env.keyOk then Except.error "use_privatekey_file failed"
  else if !env.certOk then Except.error "use_certificate_file failed"
  else if !env.keyMatches then Except.error "check_privatekey failed: key does not match certificate"
  else Except.ok ⟨tlsOptions⟩

/-- Embedding of get_ssl_context (lines 77-96).  The class attribute
_ssl_context is the cache (none = attribute absent).  If the cache is
set it is returned as is.  Otherwise the context is built; on success
it is stored and returned, on failure the error is printed (second
component of the returned pair) and None is returned with the cache
left unset.  Result: ((returned context, printed error), new cache). -/
def get_ssl_context (env : SslEnv) (cache : Option SslContext) :
    (Option SslContext × Option String) × Option SslContext :=
  match cache with
  | some c => ((some c, none), some c)
  | none =>
    match buildContext env with
    | Except.ok c => ((some c, none), some c)
    | Except.error e => ((none, some e), none)

/-- Repeated calls to get_ssl_context threading the cached class
attribute; returns the list of returned contexts and the final cache. -/
def runCalls : List SslEnv → Option SslContext →
    List (Option SslContext) × Option SslContext
  | [], cache => ([], cache)
  | e :: es, cache =>
    let r := get_ssl_context e cache
    let rest := runCalls es r.2
    (r.1.1 :: rest.1, rest.2)

inductive TlsVersion
  | ssl2
  | ssl3
  | tls10
  | tls11
  | tls12
  | tls13
deriving DecidableEq

def opNoFlag : TlsVersion → Nat
  | TlsVersion.ssl2 => OP_NO_SSLv2
  | TlsVersion.ssl3 => OP_NO_SSLv3
  | TlsVersion.tls10 => OP_NO_TLSv1
  | TlsVersion.tls11 => OP_NO_TLSv1_1
  | TlsVersion.tls12 => OP_NO_TLSv1_2
  | TlsVersion.tls13 => OP_NO_TLSv1_3

/-- A protocol version is negotiable under SSLv23_METHOD exactly when
its OP_NO bit is not set in the context options. -/
def versionEnabled (c : SslContext) (v : TlsVersion) : Bool :=
  c.options &&& opNoFlag v == 0

/-! ## Startup configuration (main, lines 98-151) -/

inductive FtpsMode
  | explicitMode
  | implicitMode
deriving DecidableEq

/-- The parsed command-line arguments (lines 100-110).  argparse
defaults: host 0.0.0.0, port 21, user/password/certfile/keyfile None,
allow-anonymous false, ftps-mode restricted to explicit|implicit or
absent.  There are no arguments for connection ceilings. -/
structure Args where
  drive : String
  host : String
  port : Nat
  user : Option String
  password : Option String
  allowAnonymous : Bool
  ftpsMode : Option FtpsMode
  certfile : Option String
  keyfile : Option String
deriving DecidableEq

/-- Python truthiness of an optional string (None and the empty string
are falsy), as used by the conditions at lines 121 and 131. -/
def truthy : Option String → Bool
  | none => false
  | some s => s != ""

/-- The handler class attributes that main sets (lines 116-128). -/
structure HandlerConfig where
  implicit_tls : Bool
  tls_control_required : Bool
  tls_data_required : Bool
  certfile : Option String
  keyfile : Option String
deriving DecidableEq

/-- Embedding of lines 116-128: all three TLS flags start False; when
both certfile and keyfile are truthy they are stored and either
implicit_tls is set (ftps-mode implicit) or, for any other mode value,
explicit enforcement is switched on. -/
def configureHandler (args : Args) : HandlerConfig :=
  let base : HandlerConfig := ⟨false, false, false, none, none⟩
  if truthy args.certfile && truthy args.keyfile then
    match args.ftpsMode with
    | some FtpsMode.implicitMode =>
      { base with
          certfile := args.certfile,
          keyfile := args.keyfile,
          implicit_tls := true }
    | _ =>
      { base with
          certfile := args.certfile,
          keyfile := args.keyfile,
          tls_control_required := true,
          tls_data_required := true }
  else base

/-- An entry of the DummyAuthorizer. -/
inductive Account
  | user (name pass homedir perm : String)
  | anonymous (homedir perm : String)
deriving DecidableEq

/-- Embedding of lines 130-134: add_user only when both user and
password are truthy, add_anonymous when the flag is set, both with
permission string elradfmw over the served drive. -/
def buildAuthorizer (args : Args) : List Account :=
  (if truthy args.user && truthy args.password then
    [Account.user (args.user.getD "") (args.password.getD "") args.drive "elradfmw"]
  else []) ++
  (if args.allowAnonymous then [Account.anonymous args.drive "elradfmw"] else [])

/-- The externally observable startup steps of main, in order. -/
inductive MainEvent
  | driveError
  | bindAndListen (host : String) (port : Nat)
  | setConnectionLimits (maxCons maxConsPerIp : Nat)
  | sslContextError
  | serveForever
deriving DecidableEq

/-- Embedding of main (lines 98-151) as its sequence of startup steps.
driveOk is the os.path.isdir check.  ThreadedFTPServer(address,
handler) at line 141 binds and listens on the address when constructed
(documented behaviour of the external server class), recorded as
bindAndListen.  Lines 142-143 set max_cons := 256 and
max_cons_per_ip := 5.  Only then, when the configuration requires TLS,
is get_ssl_context consulted (lines 145-148, cache initially empty);
if it returns None, main returns before serve_forever. -/
def mainTrace (args : Args) (driveOk : Bool) (env : SslEnv) : List MainEvent :=
  if !driveOk then [MainEvent.driveError]
  else
    let cfg := configureHandler args
    MainEvent.bindAndListen args.host args.port ::
    MainEvent.setConnectionLimits 256 5 ::
    (if cfg.implicit_tls || cfg.tls_control_required then
      match (get_ssl_context env none).1.1 with
      | none => [MainEvent.sslContextError]
      | some _ => [MainEvent.serveForever]
    else [MainEvent.serveForever])

/-! ## Concrete transports, environments and argument vectors -/

/-- A transport whose first handshake attempt reports WantWrite. -/
def tWW : Transport :=
  ⟨fun _ => StepResult.wantWrite, fun _ => none⟩

/-- A transport that always reports WantRead, becomes readable after 5
time units once, then never becomes readable again. -/
def tC2 : Transport :=
  ⟨fun _ => StepResult.wantRead,
   fun i => match i with | 0 => some 5 | _ => none⟩

/-- A transport that always reports WantRead and never becomes
readable. -/
def tNever : Transport :=
  ⟨fun _ => StepResult.wantRead, fun _ => none⟩

/-- An environment where every context-construction step fails. -/
def envBad : SslEnv := ⟨false, false, false⟩

/-- An environment where every context-construction step succeeds. -/
def envGood : SslEnv := ⟨true, true, true⟩

/-- Arguments selecting implicit FTPS with certificate and key. -/
def argsImplicit : Args :=
  ⟨"/srv/drive", "0.0.0.0", 990, none, none, false,
   some FtpsMode.implicitMode, some "/etc/ssl/cert.pem", some "/etc/ssl/key.pem"⟩

/-- A plain configuration: no TLS, no users, defaults. -/
def argsA : Args :=
  ⟨"/srv/a", "0.0.0.0", 21, none, none, false, none, none, none⟩

/-- A configuration differing from argsA in every field. -/
def argsB : Args :=
  ⟨"/mnt/b", "192.168.1.5", 2121, some "alice", some "secret", true,
   some FtpsMode.explicitMode, some "c.pem", some "k.pem"⟩

/-- Certificate and key supplied but no ftps-mode flag. -/
def argsC8 : Args :=
  ⟨"/srv/d", "0.0.0.0", 21, none, none, false, none,
   some "c.pem", some "k.pem"⟩

/-- A username supplied without a password, anonymous enabled. -/
def argsC10 : Args :=
  ⟨"/srv/drive", "0.0.0.0", 21, some "alice", none, true, none, none, none⟩

/-! ## Claims -/

/-- Claim C1, counterexample: on a transport whose first handshake
attempt signals not-ready-for-writing, the engine does not wait for
write-readiness (it performs no readiness wait at all): the
WantWriteError escapes the retry loop, which only catches
WantReadError, and the handshake fails. -/
theorem c1_counterexample :
    tWW.step 0 = StepResult.wantWrite ∧
    handshakeLoop tWW 5 3 0 = some ⟨LoopOutcome.errWantWrite, []⟩ := by
  decide

/-- Claim C1, amended: every readiness wait the engine performs is a
read-readiness wait (the waited direction is fixed to readable, the
only direction the loop handles); when an attempt signals
not-ready-for-writing the loop performs no wait and fails at once with
the escaping WantWriteError. -/
theorem c1_amended (fuel : Nat) : ∀ (t : Transport) (T i : Nat),
    loopWaitsAllRead (handshakeLoop t T fuel i) = true ∧
    (t.step i = StepResult.wantWrite → 0 < fuel →
      handshakeLoop t T fuel i = some ⟨LoopOutcome.errWantWrite, []⟩) := by
  induction fuel with
  | zero =>
    intro t T i
    exact ⟨rfl, fun _ h => absurd h (by decide)⟩
  | succ n ih =>
    intro t T i
    refine ⟨?_, ?_⟩
    · cases hs : t.step i with
      | success => simp [handshakeLoop, hs, loopWaitsAllRead]
      | wantWrite => simp [handshakeLoop, hs, loopWaitsAllRead]
      | protocolError => simp [handshakeLoop, hs, loopWaitsAllRead]
      | wantRead =>
        cases hr : t.readyAfter i with
        | none => simp [handshakeLoop, hs, hr, loopWaitsAllRead]
        | some r =>
          by_cases hle : r ≤ T
          · cases hrec : handshakeLoop t T n (i + 1) with
            | none =>
              simp [handshakeLoop, hs, hr, hle, hrec, loopWaitsAllRead]
            | some res =>
              have h1 := (ih t T (i + 1)).1
              rw [hrec] at h1
              simp only [loopWaitsAllRead] at h1
              simp [handshakeLoop, hs, hr, hle, hrec, loopWaitsAllRead, h1]
          · simp [handshakeLoop, hs, hr, hle, loopWaitsAllRead]
    · intro hw _
      simp [handshakeLoop, hw]

/-- Claim C1, witness for the amended theorem at a concrete input. -/
theorem c1_witness :
    loopWaitsAllRead (handshakeLoop tWW 5 3 0) = true ∧
    handshakeLoop tWW 5 3 0 = some ⟨LoopOutcome.errWantWrite, []⟩ :=
  ⟨(c1_amended 3 tWW 5 0).1, (c1_amended 3 tWW 5 0).2 rfl (by decide)⟩

/-- Claim C2, counterexample: the cumulative wait can exceed the
configured timeout.  With timeout 5, a transport that becomes readable
after exactly 5 units once and then never again makes the engine wait
5 + 5 = 10 > 5 units before timing out, because each select call is
given the full timeout, not the remaining portion. -/
theorem c2_counterexample :
    handshakeLoop tC2 5 3 0 =
      some ⟨LoopOutcome.timedOut, [(WaitDir.read, 5), (WaitDir.read, 5)]⟩ ∧
    totalWait ⟨LoopOutcome.timedOut, [(WaitDir.read, 5), (WaitDir.read, 5)]⟩ = 10 ∧
    5 < 10 := by
  decide

/-- Helper: every readiness wait performed by the loop takes at most
the timeout passed to select. -/
theorem loopWaitsLe_true (fuel : Nat) : ∀ (t : Transport) (T i : Nat),
    loopWaitsLe T (handshakeLoop t T fuel i) = true := by
  induction fuel with
  | zero => intro t T i; rfl
  | succ n ih =>
    intro t T i
    cases hs : t.step i with
    | success => simp [handshakeLoop, hs, loopWaitsLe]
    | wantWrite => simp [handshakeLoop, hs, loopWaitsLe]
    | protocolError => simp [handshakeLoop, hs, loopWaitsLe]
    | wantRead =>
      cases hr : t.readyAfter i with
      | none => simp [handshakeLoop, hs, hr, loopWaitsLe]
      | some r =>
        by_cases hle : r ≤ T
        · cases hrec : handshakeLoop t T n (i + 1) with
          | none => simp [handshakeLoop, hs, hr, hle, hrec, loopWaitsLe]
          | some res =>
            have h1 := ih t T (i + 1)
            rw [hrec] at h1
            simp only [loopWaitsLe] at h1
            simp [handshakeLoop, hs, hr, hle, hrec, loopWaitsLe, h1]
        · simp [handshakeLoop, hs, hr, hle, loopWaitsLe]

/-- Claim C2, amended: each individual readiness wait is bounded by the
full configured timeout T (so the cumulative wait over retries may
exceed T), and for a transport that never becomes readable the engine
fails with the timeout error after exactly one wait of length T, after
which the connection is closed without initializing the handler. -/
theorem c2_amended (t : Transport) (T fuel : Nat) :
    loopWaitsLe T (handshakeLoop t T fuel 0) = true ∧
    (t.step 0 = StepResult.wantRead → t.readyAfter 0 = none → 0 < fuel →
      handshakeLoop t T fuel 0 =
        some ⟨LoopOutcome.timedOut, [(WaitDir.read, T)]⟩ ∧
      totalWait ⟨LoopOutcome.timedOut, [(WaitDir.read, T)]⟩ = T ∧
      handlerInit true true t T fuel = some ⟨true, false, false, false⟩) := by
  refine ⟨loopWaitsLe_true fuel t T 0, ?_⟩
  intro hs hr hf
  cases fuel with
  | zero => exact absurd hf (by decide)
  | succ n =>
    have hl : handshakeLoop t T (n + 1) 0 =
        some ⟨LoopOutcome.timedOut, [(WaitDir.read, T)]⟩ := by
      simp [handshakeLoop, hs, hr]
    refine ⟨hl, by simp [totalWait], ?_⟩
    simp [handlerInit, hl]

/-- Claim C2, witness for the amended theorem at a concrete input. -/
theorem c2_witness :
    loopWaitsLe 7 (handshakeLoop tNever 7 2 0) = true ∧
    handshakeLoop tNever 7 2 0 =
      some ⟨LoopOutcome.timedOut, [(WaitDir.read, 7)]⟩ ∧
    totalWait ⟨LoopOutcome.timedOut, [(WaitDir.read, 7)]⟩ = 7 ∧
    handlerInit true true tNever 7 2 = some ⟨true, false, false, false⟩ :=
  ⟨(c2_amended tNever 7 2).1, (c2_amended tNever 7 2).2 rfl rfl (by decide)⟩

/-- Claim C3, counterexample: with implicit FTPS configured and a
context construction that fails, startup does bind the listening
socket (the server object is constructed on the address before the
context check), even though it never reaches serve_forever. -/
theorem c3_counterexample :
    mainTrace argsImplicit true envBad =
      [MainEvent.bindAndListen "0.0.0.0" 990,
       MainEvent.setConnectionLimits 256 5,
       MainEvent.sslContextError] ∧
    MainEvent.bindAndListen "0.0.0.0" 990 ∈ mainTrace argsImplicit true envBad ∧
    MainEvent.serveForever ∉ mainTrace argsImplicit true envBad := by
  refine ⟨rfl, by decide, by decide⟩

/-- Claim C3, amended: whenever the configured mode requires TLS
(implicit mode or explicit-mode enforcement) and the TLS context cannot
be built, startup terminates with a configuration error and the server
never starts serving (serve_forever is not reached, so no connection is
ever accepted) — but the listening socket is bound first, since the
server object is constructed on the address before the context check. -/
theorem c3_amended (args : Args) (env : SslEnv) (msg : String)
    (hreq : (configureHandler args).implicit_tls = true ∨
            (configureHandler args).tls_control_required = true)
    (hbuild : buildContext env = Except.error msg) :
    mainTrace args true env =
      [MainEvent.bindAndListen args.host args.port,
       MainEvent.setConnectionLimits 256 5,
       MainEvent.sslContextError] ∧
    MainEvent.serveForever ∉ mainTrace args true env := by
  have hget : (get_ssl_context env none).1.1 = none := by
    simp [get_ssl_context, hbuild]
  have hcond : ((configureHandler args).implicit_tls ||
      (configureHandler args).tls_control_required) = true := by
    rcases hreq with h | h <;> simp [h]
  constructor
  · simp [mainTrace, hcond, hget]
  · simp [mainTrace, hcond, hget]

/-- Claim C3, witness for the amended theorem at a concrete input. -/
theorem c3_witness :
    mainTrace argsImplicit true envBad =
      [MainEvent.bindAndListen argsImplicit.host argsImplicit.port,
       MainEvent.setConnectionLimits 256 5,
       MainEvent.sslContextError] ∧
    MainEvent.serveForever ∉ mainTrace argsImplicit true envBad :=
  c3_amended argsImplicit envBad "use_privatekey_file failed"
    (Or.inl (by decide)) rfl

/-- Claim C4: in implicit-TLS mode, whenever the handshake bootstrap
fails — the context accessor returned None, or the handshake loop ended
in timeout, WantWrite or protocol error — the raw connection is closed,
super().__init__ is never entered (no protocol-handler lifecycle for
that connection) and no exception escapes __init__: the single
except Exception clause absorbs every failure. -/
theorem c4_init_on_failure (ctxOk : Bool) (t : Transport) (T fuel : Nat)
    (r : LoopResult) :
    (ctxOk = false →
      handlerInit true ctxOk t T fuel = some ⟨true, false, false, false⟩) ∧
    (handshakeLoop t T fuel 0 = some r → r.outcome ≠ LoopOutcome.ok →
      handlerInit true ctxOk t T fuel = some ⟨true, false, false, false⟩) := by
  obtain ⟨o, w⟩ := r
  constructor
  · intro h
    subst h
    simp [handlerInit]
  · intro hl ho
    cases ctxOk with
    | false => simp [handlerInit]
    | true =>
      cases o with
      | ok => exact absurd rfl ho
      | timedOut => simp [handlerInit, hl]
      | errWantWrite => simp [handlerInit, hl]
      | errProtocol => simp [handlerInit, hl]

/-- Claim C4, witness at concrete inputs (missing context, and a
handshake that times out). -/
theorem c4_witness :
    handlerInit true false tNever 1 1 = some ⟨true, false, false, false⟩ ∧
    handlerInit true true tNever 1 1 = some ⟨true, false, false, false⟩ :=
  ⟨(c4_init_on_failure false tNever 1 1
      ⟨LoopOutcome.timedOut, [(WaitDir.read, 1)]⟩).1 rfl,
   (c4_init_on_failure true tNever 1 1
      ⟨LoopOutcome.timedOut, [(WaitDir.read, 1)]⟩).2 (by decide) (by decide)⟩

/-- Claim C5: when context construction fails, the call returns None
together with the printed error naming the failing step, and the cache
stays empty; a subsequent call therefore re-runs construction from
scratch (here: it succeeds once the environment is valid), so failure
is never cached. -/
theorem c5_cache_empty_on_failure (env : SslEnv) (msg : String)
    (env2 : SslEnv) (c2 : SslContext)
    (hfail : buildContext env = Except.error msg) :
    get_ssl_context env none = ((none, some msg), none) ∧
    (buildContext env2 = Except.ok c2 →
      get_ssl_context env2 (get_ssl_context env none).2 =
        ((some c2, none), some c2)) := by
  constructor
  · simp [get_ssl_context, hfail]
  · intro hok
    simp [get_ssl_context, hfail, hok]

/-- Claim C5, witness: a failing then a succeeding construction. -/
theorem c5_witness :
    get_ssl_context envBad none =
      ((none, some "use_privatekey_file failed"), none) ∧
    get_ssl_context envGood (get_ssl_context envBad none).2 =
      ((some ⟨tlsOptions⟩, none), some ⟨tlsOptions⟩) :=
  ⟨(c5_cache_empty_on_failure envBad "use_privatekey_file failed"
      envGood ⟨tlsOptions⟩ rfl).1,
   (c5_cache_empty_on_failure envBad "use_privatekey_file failed"
      envGood ⟨tlsOptions⟩ rfl).2 rfl⟩

/-- Claim C6: after the first successful construction the context c is
stored in the class attribute, and from then on every call — whatever
its environment — returns exactly that stored c and leaves the cache
unchanged, so at most one context exists per handler configuration and
the stored instance is never replaced. -/
theorem c6_context_unique (envs : List SslEnv) (env : SslEnv) (c : SslContext)
    (hok : buildContext env = Except.ok c) :
    get_ssl_context env none = ((some c, none), some c) ∧
    runCalls envs (some c) = (envs.map (fun _ => some c), some c) := by
  constructor
  · simp [get_ssl_context, hok]
  · induction envs with
    | nil => simp [runCalls]
    | cons e es ih => simp [runCalls, get_ssl_context, ih]

/-- Claim C6, witness: the built context survives two further calls. -/
theorem c6_witness :
    get_ssl_context envGood none =
      ((some ⟨tlsOptions⟩, none), some ⟨tlsOptions⟩) ∧
    runCalls [envBad, envGood] (some ⟨tlsOptions⟩) =
      ([some ⟨tlsOptions⟩, some ⟨tlsOptions⟩], some ⟨tlsOptions⟩) :=
  c6_context_unique [envBad, envGood] envGood ⟨tlsOptions⟩ rfl

/-- Helper: every context the build step returns carries exactly the
option bits set at line 87. -/
theorem buildContext_ok_shape (env : SslEnv) (c : SslContext)
    (h : buildContext env = Except.ok c) : c = ⟨tlsOptions⟩ := by
  unfold buildContext at h
  split at h
  · simp at h
  · split at h
    · simp at h
    · split at h
      · simp at h
      · injection h with h2
        exact h2.symm

/-- Claim C7: every context the cache builds has the four OP_NO option
bits for SSLv2, SSLv3, TLS 1.0 and TLS 1.1 set, and under
SSLv23_METHOD exactly the versions TLS 1.2 and TLS 1.3 remain
negotiable. -/
theorem c7_versions (env : SslEnv) (c : SslContext)
    (hbuilt : (get_ssl_context env none).1.1 = some c) :
    c.options &&& OP_NO_SSLv2 = OP_NO_SSLv2 ∧
    c.options &&& OP_NO_SSLv3 = OP_NO_SSLv3 ∧
    c.options &&& OP_NO_TLSv1 = OP_NO_TLSv1 ∧
    c.options &&& OP_NO_TLSv1_1 = OP_NO_TLSv1_1 ∧
    versionEnabled c TlsVersion.ssl2 = false ∧
    versionEnabled c TlsVersion.ssl3 = false ∧
    versionEnabled c TlsVersion.tls10 = false ∧
    versionEnabled c TlsVersion.tls11 = false ∧
    versionEnabled c TlsVersion.tls12 = true ∧
    versionEnabled c TlsVersion.tls13 = true := by
  have hc : c = ⟨tlsOptions⟩ := by
    simp only [get_ssl_context] at hbuilt
    cases hb : buildContext env with
    | ok c2 =>
      rw [hb] at hbuilt
      simp only [Option.some.injEq] at hbuilt
      rw [← hbuilt]
      exact buildContext_ok_shape env c2 hb
    | error e =>
      rw [hb] at hbuilt
      simp at hbuilt
  subst hc
  decide

/-- Claim C7, witness at the all-valid environment. -/
theorem c7_witness :
    (get_ssl_context envGood none).1.1 = some ⟨tlsOptions⟩ ∧
    versionEnabled ⟨tlsOptions⟩ TlsVersion.tls12 = true ∧
    versionEnabled ⟨tlsOptions⟩ TlsVersion.ssl3 = false :=
  ⟨rfl,
   (c7_versions envGood ⟨tlsOptions⟩ rfl).2.2.2.2.2.2.2.2.1,
   (c7_versions envGood ⟨tlsOptions⟩ rfl).2.2.2.2.2.1⟩

/-- Claim C8: when certificate and key are supplied but no ftps-mode
flag is given, the configuration falls into the else branch of
line 126: explicit-mode enforcement is silently enabled
(tls_control_required and tls_data_required set, implicit_tls not),
yielding exactly the handler configuration of explicit mode. -/
theorem c8_default_explicit (args : Args)
    (hc : truthy args.certfile = true) (hk : truthy args.keyfile = true)
    (hm : args.ftpsMode = none) :
    configureHandler args =
      configureHandler { args with ftpsMode := some FtpsMode.explicitMode } ∧
    (configureHandler args).tls_control_required = true ∧
    (configureHandler args).tls_data_required = true ∧
    (configureHandler args).implicit_tls = false := by
  simp [configureHandler, hc, hk, hm]

/-- Claim C8, witness at a concrete argument vector. -/
theorem c8_witness :
    configureHandler argsC8 =
      configureHandler { argsC8 with ftpsMode := some FtpsMode.explicitMode } ∧
    (configureHandler argsC8).tls_control_required = true ∧
    (configureHandler argsC8).tls_data_required = true ∧
    (configureHandler argsC8).implicit_tls = false :=
  c8_default_explicit argsC8 (by decide) (by decide) rfl

/-- Claim C9, counterexample: the connection ceilings are not consumed
from the configuration.  Two argument vectors differing in every field
(and a parser that offers no ceiling arguments at all) both produce the
fixed limits 256 and 5. -/
theorem c9_counterexample :
    argsA ≠ argsB ∧
    MainEvent.setConnectionLimits 256 5 ∈ mainTrace argsA true envGood ∧
    MainEvent.setConnectionLimits 256 5 ∈ mainTrace argsB true envGood := by
  decide

/-- Claim C9, amended: for every startup configuration the server sets
the hardcoded ceilings max_cons = 256 and max_cons_per_ip = 5 (lines
142-143); these are the only connection limits ever applied, and the
CLI/config layer offers no way to change them. -/
theorem c9_amended (args : Args) (env : SslEnv) (g p : Nat) :
    MainEvent.setConnectionLimits 256 5 ∈ mainTrace args true env ∧
    (MainEvent.setConnectionLimits g p ∈ mainTrace args true env →
      g = 256 ∧ p = 5) := by
  have h0 : mainTrace args true env =
      MainEvent.bindAndListen args.host args.port ::
      MainEvent.setConnectionLimits 256 5 ::
      (if (configureHandler args).implicit_tls ||
          (configureHandler args).tls_control_required then
        match (get_ssl_context env none).1.1 with
        | none => [MainEvent.sslContextError]
        | some _ => [MainEvent.serveForever]
      else [MainEvent.serveForever]) := rfl
  have htail : mainTrace args true env =
      [MainEvent.bindAndListen args.host args.port,
       MainEvent.setConnectionLimits 256 5, MainEvent.sslContextError] ∨
      mainTrace args true env =
      [MainEvent.bindAndListen args.host args.port,
       MainEvent.setConnectionLimits 256 5, MainEvent.serveForever] := by
    rw [h0]
    split
    · cases (get_ssl_context env none).1.1 with
      | none => left; rfl
      | some c => right; rfl
    · right; rfl
  rcases htail with h | h <;> rw [h] <;>
    exact ⟨by simp, fun hm => by simpa using hm⟩

/-- Claim C9, witness for the amended theorem at a concrete input. -/
theorem c9_witness :
    MainEvent.setConnectionLimits 256 5 ∈ mainTrace argsA true envGood ∧
    (256 = 256 ∧ 5 = 5) :=
  ⟨(c9_amended argsA envGood 256 5).1,
   (c9_amended argsA envGood 256 5).2 (by decide)⟩

/-- Claim C10: when exactly one of username and password is supplied,
the condition at line 131 is false, so no authenticated user is added:
the registry holds only the anonymous entry when allow-anonymous is
set, and nothing otherwise. -/
theorem c10_partial_credentials (args : Args)
    (h : (args.user.isSome ∧ args.password = none) ∨
         (args.user = none ∧ args.password.isSome)) :
    buildAuthorizer args =
      (if args.allowAnonymous then
        [Account.anonymous args.drive "elradfmw"]
      else []) := by
  rcases h with ⟨h1, h2⟩ | ⟨h1, h2⟩
  · simp [buildAuthorizer, h2, truthy]
  · simp [buildAuthorizer, h1, truthy]

/-- Claim C10, witness: username without password, anonymous allowed. -/
theorem c10_witness :
    buildAuthorizer argsC10 =
      (if argsC10.allowAnonymous then
        [Account.anonymous argsC10.drive "elradfmw"]
      else []) :=
  c10_partial_credentials argsC10 (Or.inl ⟨rfl, rfl⟩)

end FTP2NetDrive
